import Mathlib

/-!
Verification of the custom tokenizer and pipeline of the notebook
`1_NLP_Text_Representation.ipynb`, shallowly embedded in Lean.

The notebook's only author-written logic is `spacy_tokenizer`, built on two
global constants: `stop_words = nlp.Defaults.stop_words` (a fixed set of 326
strings, reproduced verbatim from the notebook's printed output) and
`punctuations = string.punctuation` (the 32-character ASCII punctuation
string).  The spaCy language pipeline `nlp`, the scikit-learn vectorizers and
the metric functions are external libraries; where a claim needs them they
are modelled from the spec and marked as such.
-/

namespace NLP

/-- A token produced by the external language pipeline.  The tokenizer only
reads its lemma (`word.lemma_` in the notebook). -/
structure SpacyToken where
  lemma_ : String

/-- A parsed document: the sequence of tokens the pipeline produced. -/
abbrev Doc := List SpacyToken

/-- `stop_words = nlp.Defaults.stop_words`: the fixed spaCy English stop-word
set, transcribed from the set printed by the notebook (326 entries; here
listed sorted — Python-set membership is order-independent). -/
def stop_words : List String := [
  "\x27d", "\x27ll", "\x27m", "\x27re", "\x27s", "\x27ve", "a", "about",
  "above", "across", "after", "afterwards", "again", "against", "all", "almost",
  "alone", "along", "already", "also", "although", "always", "am", "among",
  "amongst", "amount", "an", "and", "another", "any", "anyhow", "anyone",
  "anything", "anyway", "anywhere", "are", "around", "as", "at", "back",
  "be", "became", "because", "become", "becomes", "becoming", "been", "before",
  "beforehand", "behind", "being", "below", "beside", "besides", "between", "beyond",
  "both", "bottom", "but", "by", "ca", "call", "can", "cannot",
  "could", "did", "do", "does", "doing", "done", "down", "due",
  "during", "each", "eight", "either", "eleven", "else", "elsewhere", "empty",
  "enough", "even", "ever", "every", "everyone", "everything", "everywhere", "except",
  "few", "fifteen", "fifty", "first", "five", "for", "former", "formerly",
  "forty", "four", "from", "front", "full", "further", "get", "give",
  "go", "had", "has", "have", "he", "hence", "her", "here",
  "hereafter", "hereby", "herein", "hereupon", "hers", "herself", "him", "himself",
  "his", "how", "however", "hundred", "i", "if", "in", "indeed",
  "into", "is", "it", "its", "itself", "just", "keep", "last",
  "latter", "latterly", "least", "less", "made", "make", "many", "may",
  "me", "meanwhile", "might", "mine", "more", "moreover", "most", "mostly",
  "move", "much", "must", "my", "myself", "n\x27t", "name", "namely",
  "neither", "never", "nevertheless", "next", "nine", "no", "nobody", "none",
  "noone", "nor", "not", "nothing", "now", "nowhere", "n‘t", "n’t",
  "of", "off", "often", "on", "once", "one", "only", "onto",
  "or", "other", "others", "otherwise", "our", "ours", "ourselves", "out",
  "over", "own", "part", "per", "perhaps", "please", "put", "quite",
  "rather", "re", "really", "regarding", "same", "say", "see", "seem",
  "seemed", "seeming", "seems", "serious", "several", "she", "should", "show",
  "side", "since", "six", "sixty", "so", "some", "somehow", "someone",
  "something", "sometime", "sometimes", "somewhere", "still", "such", "take", "ten",
  "than", "that", "the", "their", "them", "themselves", "then", "thence",
  "there", "thereafter", "thereby", "therefore", "therein", "thereupon", "these", "they",
  "third", "this", "those", "though", "three", "through", "throughout", "thru",
  "thus", "to", "together", "too", "top", "toward", "towards", "twelve",
  "twenty", "two", "under", "unless", "until", "up", "upon", "us",
  "used", "using", "various", "very", "via", "was", "we", "well",
  "were", "what", "whatever", "when", "whence", "whenever", "where", "whereafter",
  "whereas", "whereby", "wherein", "whereupon", "wherever", "whether", "which", "while",
  "whither", "who", "whoever", "whole", "whom", "whose", "why", "will",
  "with", "within", "without", "would", "yet", "you", "your", "yours",
  "yourself", "yourselves", "‘d", "‘ll", "‘m", "‘re", "‘s", "‘ve",
  "’d", "’ll", "’m", "’re", "’s", "’ve"]

/-- `punctuations = string.punctuation`: the 32-character ASCII punctuation
string, as printed by the notebook. -/
def punctuations : String := "!\"#$%&\x27()*+,-./:;<=>?@[\\]^_\x60\x7b|\x7d~"

/-- Embedding of Python `str.lower()` as used on lemmas, per character via
`Char.toLower` (basic-latin case mapping). -/
def pyLower (s : String) : String := String.mk (s.data.map Char.toLower)

/-- Does `needle` occur as a contiguous run inside `haystack`?  The scan tries
each suffix of the haystack; the empty needle occurs everywhere. -/
def infixOf (needle : List Char) : List Char → Bool
  | [] => needle.isEmpty
  | c :: cs => needle.isPrefixOf (c :: cs) || infixOf needle cs

/-- Embedding of Python string membership `needle in haystack` (for two
strings Python tests substring containment, not character-set membership). -/
def pyInStr (needle haystack : String) : Bool := infixOf needle.data haystack.data

/-- `spacy_tokenizer` from the notebook, with the external pipeline `nlp`
made an explicit parameter:

    def spacy_tokenizer(sentence):
        doc = nlp(sentence)
        mytokens = [word.lemma_.lower() for word in doc]
        mytokens = [token for token in mytokens
                    if token not in stop_words and token not in punctuations]
        return mytokens

`token not in stop_words` is set membership; `token not in punctuations` is
substring membership in the punctuation string. -/
def spacy_tokenizer (nlp : String → Doc) (sentence : String) : List String :=
  let doc := nlp sentence
  let mytokens := doc.map (fun word => pyLower word.lemma_)
  let mytokens := mytokens.filter
    (fun token => !(stop_words.contains token) && !(pyInStr token punctuations))
  mytokens

/-- Modelled from the spec: the pretrained language pipeline
(`nlp = spacy.load("en_core_web_sm")`) is an external collaborator, absent
from the repository (spec section 1 lists it out of scope).  Its behavior on
the concrete inputs the spec discusses is modelled here following spec
sections 4.1 and 8 and the glossary: the pipeline segments the input into
word/punctuation tokens and attaches each token's dictionary base form
("eating" → "eat", "playing" → "play", "am" → "be"; pronouns and punctuation
marks are their own base forms; an ellipsis is one token; the empty string
has no tokens). -/
def nlp_model : String → Doc := fun s =>
  if s = "I am eating apple, I like apple" then
    [⟨"I"⟩, ⟨"be"⟩, ⟨"eat"⟩, ⟨"apple"⟩, ⟨","⟩, ⟨"I"⟩, ⟨"like"⟩, ⟨"apple"⟩]
  else if s = "I am playing cricket" then
    [⟨"I"⟩, ⟨"be"⟩, ⟨"play"⟩, ⟨"cricket"⟩]
  else if s = "apple" then [⟨"apple"⟩]
  else if s = "..." then [⟨"..."⟩]
  else []

/-- Boolean lexicographic order on character lists (by code point), used to
reproduce the vectorizer's sorted vocabulary order. -/
def charLe : List Char → List Char → Bool
  | [], _ => true
  | _ :: _, [] => false
  | a :: as, b :: bs => if a < b then true else if b < a then false else charLe as bs

/-- Insert a string into a list kept sorted by `charLe`. -/
def insertSorted (x : String) : List String → List String
  | [] => [x]
  | y :: ys => if charLe x.data y.data then x :: y :: ys else y :: insertSorted x ys

/-- Sort a list of strings lexicographically. -/
def sortStrings (l : List String) : List String := l.foldr insertSorted []

/-- Modelled from the spec: `CountVectorizer.fit` (scikit-learn, external,
spec section 4.2) learns the vocabulary — the distinct tokens produced by the
tokenizer over the corpus — and exposes the feature names in sorted order. -/
def fit_feature_names (tokenize : String → List String) (corpus : List String) :
    List String :=
  sortStrings ((corpus.map tokenize).flatten.dedup)

/-- Modelled from the spec: one row of the count matrix — for each vocabulary
term, the number of occurrences of that term among the document's tokens. -/
def transform_row (tokenize : String → List String) (vocab : List String)
    (docText : String) : List Nat :=
  vocab.map (fun term => (tokenize docText).count term)

/-- Modelled from the spec: `CountVectorizer.fit_transform` — learn the
vocabulary from the corpus, then map each document to its count row. -/
def fit_transform (tokenize : String → List String) (corpus : List String) :
    List (List Nat) :=
  corpus.map (transform_row tokenize (fit_feature_names tokenize corpus))

/-- True positives: positions where prediction and ground truth are both 1. -/
def truePos (y_true y_pred : List Bool) : Nat :=
  ((y_true.zip y_pred).filter (fun p => p.1 && p.2)).length

/-- False positives: predicted 1, ground truth 0. -/
def falsePos (y_true y_pred : List Bool) : Nat :=
  ((y_true.zip y_pred).filter (fun p => !p.1 && p.2)).length

/-- False negatives: predicted 0, ground truth 1. -/
def falseNeg (y_true y_pred : List Bool) : Nat :=
  ((y_true.zip y_pred).filter (fun p => p.1 && !p.2)).length

/-- Modelled from the spec: `metrics.precision_score` (scikit-learn, external,
spec section 4.4) — tp / (tp + fp) for the positive class, returning 0 instead
of raising when there are no predicted positives. -/
def precision_score (y_true y_pred : List Bool) : ℚ :=
  let tp := truePos y_true y_pred
  let fp := falsePos y_true y_pred
  if tp + fp = 0 then 0 else (tp : ℚ) / ((tp : ℚ) + (fp : ℚ))

/-- Modelled from the spec: `metrics.recall_score` — tp / (tp + fn) for the
positive class, returning 0 instead of raising when there are no actual
positives. -/
def recall_score (y_true y_pred : List Bool) : ℚ :=
  let tp := truePos y_true y_pred
  let fn := falseNeg y_true y_pred
  if tp + fn = 0 then 0 else (tp : ℚ) / ((tp : ℚ) + (fn : ℚ))

/-- Modelled from the spec: F1 for the positive class — the harmonic mean
2·p·r/(p+r) of precision and recall, returning 0 when both are 0. -/
def f1_score (y_true y_pred : List Bool) : ℚ :=
  let p := precision_score y_true y_pred
  let r := recall_score y_true y_pred
  if p + r = 0 then 0 else 2 * p * r / (p + r)

/-- Follows the claim's words (for comparison with the code's test): a token
that is exactly one of the punctuation characters. -/
def punctSingleSpec (t : String) : Bool :=
  punctuations.data.any (fun c => t == String.mk [c])

/-- Follows the claim's words (for comparison with the code's test): a
nonempty token consisting solely of punctuation characters. -/
def punctOnlySpec (t : String) : Bool :=
  !t.data.isEmpty && t.data.all (fun c => punctuations.data.contains c)

/-! ## Helper lemmas -/

theorem char_toNat_ofNat_lt (n : Nat) (h : n < 55296) : (Char.ofNat n).toNat = n := by
  have hv : n.isValidChar := Or.inl h
  simp [Char.ofNat, dif_pos hv, Char.ofNatAux, Char.toNat, UInt32.toNat,
    BitVec.toNat_ofNatLt]

theorem char_toLower_fixed (c : Char) (h : ¬(65 ≤ c.toNat ∧ c.toNat ≤ 90)) :
    Char.toLower c = c := by
  simp only [Char.toLower]
  rw [if_neg (by omega)]

theorem char_toNat_toLower_not_upper (c : Char) :
    ¬(65 ≤ (Char.toLower c).toNat ∧ (Char.toLower c).toNat ≤ 90) := by
  simp only [Char.toLower]
  by_cases h : c.toNat ≥ 65 ∧ c.toNat ≤ 90
  · rw [if_pos h, char_toNat_ofNat_lt (c.toNat + 32) (by omega)]
    omega
  · rw [if_neg h]
    omega

theorem char_toLower_toLower (c : Char) :
    Char.toLower (Char.toLower c) = Char.toLower c :=
  char_toLower_fixed _ (char_toNat_toLower_not_upper c)

theorem pyLower_pyLower (s : String) : pyLower (pyLower s) = pyLower s := by
  simp [pyLower, List.map_map, Function.comp_def, char_toLower_toLower]

theorem infixOf_eq_true_iff (n h : List Char) : infixOf n h = true ↔ n <:+: h := by
  induction h with
  | nil => simp [infixOf, List.isEmpty_iff]
  | cons c cs ih => simp [infixOf, List.infix_cons_iff, ih]

theorem mem_spacy_tokenizer (nlp : String → Doc) (s t : String)
    (ht : t ∈ spacy_tokenizer nlp s) :
    (∃ w ∈ nlp s, t = pyLower w.lemma_) ∧
      stop_words.contains t = false ∧ pyInStr t punctuations = false := by
  simp only [spacy_tokenizer, List.mem_filter, List.mem_map,
    Bool.and_eq_true, Bool.not_eq_true'] at ht
  obtain ⟨⟨w, hw, hwt⟩, hstop, hpunct⟩ := ht
  exact ⟨⟨w, hw, hwt.symm⟩, hstop, hpunct⟩

theorem truePos_eq_zero_of_no_pred (y_true y_pred : List Bool)
    (h : ∀ b ∈ y_pred, b = false) : truePos y_true y_pred = 0 := by
  simp only [truePos, List.length_eq_zero, List.filter_eq_nil_iff]
  rintro ⟨a, b⟩ hab
  have hb := h b (List.of_mem_zip hab).2
  simp [hb]

theorem falsePos_eq_zero_of_no_pred (y_true y_pred : List Bool)
    (h : ∀ b ∈ y_pred, b = false) : falsePos y_true y_pred = 0 := by
  simp only [falsePos, List.length_eq_zero, List.filter_eq_nil_iff]
  rintro ⟨a, b⟩ hab
  have hb := h b (List.of_mem_zip hab).2
  simp [hb]

theorem truePos_eq_zero_of_no_actual (y_true y_pred : List Bool)
    (h : ∀ b ∈ y_true, b = false) : truePos y_true y_pred = 0 := by
  simp only [truePos, List.length_eq_zero, List.filter_eq_nil_iff]
  rintro ⟨a, b⟩ hab
  have ha := h a (List.of_mem_zip hab).1
  simp [ha]

theorem recall_score_eq_zero_of_truePos_zero (y_true y_pred : List Bool)
    (h : truePos y_true y_pred = 0) : recall_score y_true y_pred = 0 := by
  simp only [recall_score, h]
  split <;> simp

/-! ## Claim theorems -/

/-- Claim C1, as stated, is false: the punctuation filter does not remove
every token consisting solely of punctuation characters.  On the modelled
pipeline, tokenizing an ellipsis leaves the punctuation-only token `"..."` in
the output, because `"..."` is not a contiguous substring of
`string.punctuation` (which contains a single `.`). -/
theorem spacy_tokenizer_punct_only_claim_false :
    ¬ (∀ (nlp : String → Doc) (s : String), ∀ t ∈ spacy_tokenizer nlp s,
        stop_words.contains t = false ∧ punctOnlySpec t = false) := by
  intro hclaim
  have h := (hclaim nlp_model "..." "..." (by decide)).2
  have ht : punctOnlySpec "..." = true := by decide
  rw [h] at ht
  exact Bool.false_ne_true ht

/-- Claim C1, amended: for every pipeline and every input string, no token
returned by `spacy_tokenizer` is a member of the fixed stop-word set, and no
returned token is a contiguous substring of the fixed punctuation string (in
particular no single punctuation character survives).  Punctuation-only
tokens that are not contiguous substrings of `string.punctuation`, such as
`"..."`, may appear in the output. -/
theorem spacy_tokenizer_no_stop_no_punct_substring (nlp : String → Doc) (s : String) :
    ∀ t ∈ spacy_tokenizer nlp s,
      stop_words.contains t = false ∧ pyInStr t punctuations = false :=
  fun t ht => (mem_spacy_tokenizer nlp s t ht).2

/-- Claim C1 witness: the amended theorem applied to the modelled pipeline at
input `"apple"`, whose output contains the token `"apple"`. -/
theorem spacy_tokenizer_no_stop_no_punct_substring_witness :
    stop_words.contains "apple" = false ∧ pyInStr "apple" punctuations = false :=
  spacy_tokenizer_no_stop_no_punct_substring nlp_model "apple" "apple" (by decide)

/-- Claim C2: fitting the count vectorizer with `spacy_tokenizer` on the
two-document corpus learns exactly the five-term vocabulary
`[apple, cricket, eat, like, play]` (sorted column order) and produces the
2×5 count matrix with row 0 = `[2,0,1,1,0]` and row 1 = `[0,1,0,0,1]`. -/
theorem countvectorizer_two_sentences :
    fit_feature_names (spacy_tokenizer nlp_model)
        ["I am eating apple, I like apple", "I am playing cricket"] =
      ["apple", "cricket", "eat", "like", "play"] ∧
    fit_transform (spacy_tokenizer nlp_model)
        ["I am eating apple, I like apple", "I am playing cricket"] =
      [[2, 0, 1, 1, 0], [0, 1, 0, 0, 1]] :=
  ⟨by decide, by decide⟩

/-- Claim C3: `spacy_tokenizer` maps `"I am eating apple, I like apple"` to
`["eat", "apple", "like", "apple"]` (pronouns, auxiliaries and the comma
removed, `"eating"` lemmatized to `"eat"`), and `"I am playing cricket"` to
`["play", "cricket"]`. -/
theorem spacy_tokenizer_concrete_sentences :
    spacy_tokenizer nlp_model "I am eating apple, I like apple" =
      ["eat", "apple", "like", "apple"] ∧
    spacy_tokenizer nlp_model "I am playing cricket" = ["play", "cricket"] :=
  ⟨by decide, by decide⟩

/-- Claim C4: for every pipeline and every input string, every token returned
by `spacy_tokenizer` is lower-case: lowercasing fixes it, and none of its
characters is a basic-latin capital letter (code points 65–90). -/
theorem spacy_tokenizer_output_lowercase (nlp : String → Doc) (s t : String)
    (ht : t ∈ spacy_tokenizer nlp s) :
    pyLower t = t ∧ ∀ c ∈ t.data, ¬(65 ≤ c.toNat ∧ c.toNat ≤ 90) := by
  obtain ⟨⟨w, -, rfl⟩, -, -⟩ := mem_spacy_tokenizer nlp s t ht
  refine ⟨pyLower_pyLower _, ?_⟩
  intro c hc
  have hc2 : c ∈ w.lemma_.data.map Char.toLower := hc
  obtain ⟨d, -, rfl⟩ := List.mem_map.mp hc2
  exact char_toNat_toLower_not_upper d

/-- Claim C4 witness: the theorem applied to the modelled pipeline at input
`"apple"`, whose output contains the token `"apple"`. -/
theorem spacy_tokenizer_output_lowercase_witness :
    pyLower "apple" = "apple" ∧ ∀ c ∈ "apple".data, ¬(65 ≤ c.toNat ∧ c.toNat ≤ 90) :=
  spacy_tokenizer_output_lowercase nlp_model "apple" "apple" (by decide)

/-- Claim C5: whenever the pipeline produces no tokens for the empty string
(as the spec requires of it), `spacy_tokenizer` returns the empty list on the
empty string. -/
theorem spacy_tokenizer_empty_string (nlp : String → Doc) (h : nlp "" = []) :
    spacy_tokenizer nlp "" = [] := by
  simp [spacy_tokenizer, h]

/-- Claim C5 witness: the theorem applied to the modelled pipeline, which
assigns the empty string an empty document. -/
theorem spacy_tokenizer_empty_string_witness :
    spacy_tokenizer nlp_model "" = [] :=
  spacy_tokenizer_empty_string nlp_model rfl

/-- Claim C6: re-tokenization is idempotent on already-normalized
single-token strings outside the stop/punctuation sets: if the pipeline
parses `s` as a single token whose lower-cased lemma is `s` itself, and `s`
is neither a stop word nor a substring of the punctuation string, then
`spacy_tokenizer` returns `[s]` — so tokenizing the sole output token again
reproduces it unchanged. -/
theorem spacy_tokenizer_single_normalized (nlp : String → Doc) (s : String)
    (tok : SpacyToken) (hdoc : nlp s = [tok]) (hnorm : pyLower tok.lemma_ = s)
    (hstop : stop_words.contains s = false)
    (hpunct : pyInStr s punctuations = false) :
    spacy_tokenizer nlp s = [s] := by
  simp [spacy_tokenizer, hdoc, hnorm, hpunct]
  simpa using hstop

/-- Claim C6 witness: the theorem applied to the modelled pipeline at
`"apple"`, a normalized non-stop non-punctuation single-token string. -/
theorem spacy_tokenizer_single_normalized_witness :
    spacy_tokenizer nlp_model "apple" = ["apple"] :=
  spacy_tokenizer_single_normalized nlp_model "apple" ⟨"apple"⟩ rfl rfl
    (by decide) (by decide)

/-- Claim C7: `spacy_tokenizer` is deterministic — its output depends only on
the input text and the pipeline's behavior on it (the stop-word and
punctuation sets being fixed constants): equal inputs and equal pipeline
results give equal token lists, with no other dependence and no randomness. -/
theorem spacy_tokenizer_deterministic (nlp₁ nlp₂ : String → Doc) (s₁ s₂ : String)
    (hs : s₁ = s₂) (hdoc : nlp₁ s₁ = nlp₂ s₂) :
    spacy_tokenizer nlp₁ s₁ = spacy_tokenizer nlp₂ s₂ := by
  subst hs
  simp only [spacy_tokenizer, hdoc]

/-- Claim C7 witness: the theorem applied twice to the modelled pipeline at
`"apple"`. -/
theorem spacy_tokenizer_deterministic_witness :
    spacy_tokenizer nlp_model "apple" = spacy_tokenizer nlp_model "apple" :=
  spacy_tokenizer_deterministic nlp_model nlp_model "apple" "apple" rfl rfl

/-- Claim C8: for equal-length predicted and true binary label sequences, the
evaluator's precision, recall and F1 return 0 in the division-by-zero cases
instead of raising: with no predicted positives, precision, recall and F1 are
all 0; with no actual positives, recall is 0. -/
theorem metrics_zero_division_returns_zero (y_true y_pred : List Bool)
    (_hlen : y_true.length = y_pred.length) :
    ((∀ b ∈ y_pred, b = false) →
      precision_score y_true y_pred = 0 ∧ recall_score y_true y_pred = 0 ∧
        f1_score y_true y_pred = 0) ∧
    ((∀ b ∈ y_true, b = false) → recall_score y_true y_pred = 0) := by
  constructor
  · intro h
    have htp := truePos_eq_zero_of_no_pred y_true y_pred h
    have hfp := falsePos_eq_zero_of_no_pred y_true y_pred h
    have hprec : precision_score y_true y_pred = 0 := by
      simp [precision_score, htp, hfp]
    have hrec := recall_score_eq_zero_of_truePos_zero y_true y_pred htp
    refine ⟨hprec, hrec, ?_⟩
    simp [f1_score, hprec, hrec]
  · intro h
    exact recall_score_eq_zero_of_truePos_zero y_true y_pred
      (truePos_eq_zero_of_no_actual y_true y_pred h)

/-- Claim C8 witness: the theorem applied to `y_true = [true, false]` and the
all-negative prediction `[false, false]`, where tp + fp = 0. -/
theorem metrics_zero_division_returns_zero_witness :
    precision_score [true, false] [false, false] = 0 ∧
      recall_score [true, false] [false, false] = 0 ∧
      f1_score [true, false] [false, false] = 0 :=
  (metrics_zero_division_returns_zero [true, false] [false, false] rfl).1
    (by decide)

/-- Claim C9: the punctuation filter is substring membership in the
32-character string `string.punctuation`, not membership in a set of single
characters: a token is dropped by the punctuation test exactly when it is a
contiguous substring of that string; hence the multi-character token `"()"`
(not a single punctuation character) is removed, while the punctuation-only
token `"..."` (not a contiguous substring) is kept by the tokenizer. -/
theorem punctuation_test_is_substring_membership :
    (∀ t : String, pyInStr t punctuations = true ↔ t.data <:+: punctuations.data) ∧
      pyInStr "()" punctuations = true ∧ punctSingleSpec "()" = false ∧
      pyInStr "..." punctuations = false ∧ punctOnlySpec "..." = true ∧
      spacy_tokenizer (fun _ => [⟨"()"⟩, ⟨"..."⟩]) "( ) ..." = ["..."] := by
  refine ⟨fun t => infixOf_eq_true_iff t.data punctuations.data,
    by decide, by decide, by decide, by decide, by decide⟩

/-- Claim C10: for every pipeline and every input string, the tokenizer's
output is a sublist (order-preserving selection) of the lower-cased lemmas of
the pipeline's tokens: the filtering stage only removes elements and never
reorders, duplicates, inserts or rewrites. -/
theorem spacy_tokenizer_sublist_of_lemmas (nlp : String → Doc) (s : String) :
    (spacy_tokenizer nlp s).Sublist ((nlp s).map (fun w => pyLower w.lemma_)) := by
  simpa only [spacy_tokenizer] using
    List.filter_sublist ((nlp s).map (fun w => pyLower w.lemma_))

end NLP
